import Mathlib

/-!
Verification of the camera capture orchestration core of the
digitization-toolkit backend.

The Python sources under `capture/` are shallowly embedded here:

* `camera.py` — the `CameraConfig` dataclass and its `to_dict`/`from_dict`
  serialization (dict values are modelled by the `PyVal` union type);
* `backends/subprocess_backend.py` — the `rpicam-still` command-line builder;
* `manifestHandler.py` — JSON-line manifest appends (JSON documents are
  modelled by the `Json` type together with a serializer mirroring
  `json.dumps` with `ensure_ascii=False`, and the file system by a map from
  path to character list);
* `camera_registry.py` — hardware-identity derivation and camera
  registration over a world list modelling `Picamera2.global_camera_info()`;
* `calibration.py` — focus and white-balance calibration, with the camera
  metadata stream supplied as an explicit parameter;
* `service.py` — single/dual capture orchestration, modelled as a pure
  function from an explicit `World` (connectivity, capture outcomes, clock
  jitter) to an event trace plus a result.

Machine floats are modelled by `ℚ` (plus `PyFloat` where Python's
`float('inf')` can occur); Python's `None` and exceptions become `Option`
and `Except`.
-/

namespace DTK

/-- Union of the Python values that appear in the dictionaries handled by the
capture core: `None`, `int`, `bool`, `str`, `float` (modelled by `ℚ`) and an
int pair (the `img_size` tuple). -/
inductive PyVal where
  | none
  | int (n : ℤ)
  | bool (b : Bool)
  | str (s : String)
  | rat (q : ℚ)
  | pair (a b : ℤ)
  deriving DecidableEq

/-- Embedding of the `CameraConfig` dataclass of `capture/camera.py`, with the
dataclass field defaults.  `IMG_SIZES["medium"] = (3840, 2160)` is the default
resolution. -/
structure CameraConfig where
  camera_index : ℤ
  img_size : ℤ × ℤ := (3840, 2160)
  vflip : Bool := false
  hflip : Bool := false
  awb : String := "indoor"
  timeout : ℤ := 50
  autofocus_on_capture : Bool := true
  lens_position : Option ℚ := Option.none
  buffer_count : ℤ := 2
  thumbnail : Bool := false
  nopreview : Bool := true
  quality : ℤ := 93
  encoding : String := "jpg"
  raw : Bool := false
  denoise_frames : ℤ := 10
  zsl : Bool := false
  deriving DecidableEq

/-- The `IMG_SIZES` resolution preset table of `capture/camera.py`. -/
def IMG_SIZES : List (String × (ℤ × ℤ)) :=
  [("low", (2312, 1736)), ("medium", (3840, 2160)), ("high", (4624, 3472))]

/-- Embedding of `CameraConfig.to_dict` (which is `dataclasses.asdict`): the
fields in declaration order, tuples kept as tuples, `None` kept as `None`. -/
def CameraConfig.to_dict (c : CameraConfig) : List (String × PyVal) :=
  [("camera_index", .int c.camera_index),
   ("img_size", .pair c.img_size.1 c.img_size.2),
   ("vflip", .bool c.vflip),
   ("hflip", .bool c.hflip),
   ("awb", .str c.awb),
   ("timeout", .int c.timeout),
   ("autofocus_on_capture", .bool c.autofocus_on_capture),
   ("lens_position", match c.lens_position with
     | Option.some q => .rat q
     | Option.none => .none),
   ("buffer_count", .int c.buffer_count),
   ("thumbnail", .bool c.thumbnail),
   ("nopreview", .bool c.nopreview),
   ("quality", .int c.quality),
   ("encoding", .str c.encoding),
   ("raw", .bool c.raw),
   ("denoise_frames", .int c.denoise_frames),
   ("zsl", .bool c.zsl)]

/-- The field names accepted by the `CameraConfig` constructor; `cls(**data)`
raises `TypeError` on any other keyword. -/
def CameraConfig.fieldNames : List String :=
  ["camera_index", "img_size", "vflip", "hflip", "awb", "timeout",
   "autofocus_on_capture", "lens_position", "buffer_count", "thumbnail",
   "nopreview", "quality", "encoding", "raw", "denoise_frames", "zsl"]

/-- Embedding of `CameraConfig.from_dict`, i.e. `cls(**data)`: every key must
name a constructor field, a missing key falls back to the field default
(`camera_index` has none, so it is required), and a value of the wrong shape
for the typed Lean field yields `Option.none` (in Python the object would be
ill-typed). -/
def CameraConfig.from_dict (data : List (String × PyVal)) : Option CameraConfig :=
  if (data.map Prod.fst).all (fun k => CameraConfig.fieldNames.contains k) then do
    let camera_index ← match data.lookup "camera_index" with
      | Option.some (.int n) => Option.some n
      | _ => Option.none
    let img_size ← match data.lookup "img_size" with
      | Option.some (.pair a b) => Option.some (a, b)
      | Option.none => Option.some ((3840, 2160) : ℤ × ℤ)
      | _ => Option.none
    let vflip ← match data.lookup "vflip" with
      | Option.some (.bool b) => Option.some b
      | Option.none => Option.some false
      | _ => Option.none
    let hflip ← match data.lookup "hflip" with
      | Option.some (.bool b) => Option.some b
      | Option.none => Option.some false
      | _ => Option.none
    let awb ← match data.lookup "awb" with
      | Option.some (.str s) => Option.some s
      | Option.none => Option.some "indoor"
      | _ => Option.none
    let timeout ← match data.lookup "timeout" with
      | Option.some (.int n) => Option.some n
      | Option.none => Option.some (50 : ℤ)
      | _ => Option.none
    let autofocus_on_capture ← match data.lookup "autofocus_on_capture" with
      | Option.some (.bool b) => Option.some b
      | Option.none => Option.some true
      | _ => Option.none
    let lens_position ← match data.lookup "lens_position" with
      | Option.some (.rat q) => Option.some (Option.some q)
      | Option.some .none => Option.some Option.none
      | Option.none => Option.some Option.none
      | _ => Option.none
    let buffer_count ← match data.lookup "buffer_count" with
      | Option.some (.int n) => Option.some n
      | Option.none => Option.some (2 : ℤ)
      | _ => Option.none
    let thumbnail ← match data.lookup "thumbnail" with
      | Option.some (.bool b) => Option.some b
      | Option.none => Option.some false
      | _ => Option.none
    let nopreview ← match data.lookup "nopreview" with
      | Option.some (.bool b) => Option.some b
      | Option.none => Option.some true
      | _ => Option.none
    let quality ← match data.lookup "quality" with
      | Option.some (.int n) => Option.some n
      | Option.none => Option.some (93 : ℤ)
      | _ => Option.none
    let encoding ← match data.lookup "encoding" with
      | Option.some (.str s) => Option.some s
      | Option.none => Option.some "jpg"
      | _ => Option.none
    let raw ← match data.lookup "raw" with
      | Option.some (.bool b) => Option.some b
      | Option.none => Option.some false
      | _ => Option.none
    let denoise_frames ← match data.lookup "denoise_frames" with
      | Option.some (.int n) => Option.some n
      | Option.none => Option.some (10 : ℤ)
      | _ => Option.none
    let zsl ← match data.lookup "zsl" with
      | Option.some (.bool b) => Option.some b
      | Option.none => Option.some false
      | _ => Option.none
    Option.some
      { camera_index, img_size, vflip, hflip, awb, timeout,
        autofocus_on_capture, lens_position, buffer_count, thumbnail,
        nopreview, quality, encoding, raw, denoise_frames, zsl }
  else Option.none

/-- C10: `CameraConfig` serialization round-trips: for every `CameraConfig`
value `c`, `CameraConfig.from_dict (c.to_dict)` reconstructs `c` field for
field. -/
theorem c10_camera_config_roundtrip (c : CameraConfig) :
    CameraConfig.from_dict c.to_dict = Option.some c := by
  obtain ⟨ci, sz, vf, hf, awb, tm, af, lp, bc, th, np, q, enc, raw, dn, zsl⟩ := c
  cases lp <;> rfl

/-- Embedding of `RpicamBackend.capture_image`'s command construction in
`capture/backends/subprocess_backend.py`: the fixed `rpicam-still` invocation
followed by the flags appended for the config, in source order.  Each
Python `command.append`/`command.extend` under a condition becomes one
appended conditional list. -/
def capture_command (camera_config : CameraConfig) (output_path : String) : List String :=
  ["rpicam-still",
   "-o", output_path,
   "--width", toString camera_config.img_size.1,
   "--height", toString camera_config.img_size.2,
   "--quality", toString camera_config.quality,
   "--awb", camera_config.awb,
   "--buffer-count", toString camera_config.buffer_count,
   "--camera", toString camera_config.camera_index]
  ++ (if camera_config.timeout = 0 then ["--immediate"]
      else ["-t", toString camera_config.timeout])
  ++ (if camera_config.nopreview then ["-n"] else [])
  ++ (if camera_config.vflip then ["--vflip"] else [])
  ++ (if camera_config.hflip then ["--hflip"] else [])
  ++ (if camera_config.autofocus_on_capture then ["--autofocus-on-capture"] else [])
  ++ (if camera_config.thumbnail then ["--thumb", "320:240:70"] else [])
  ++ (if camera_config.zsl then ["--zsl"] else [])
  ++ (match camera_config.lens_position with
      | Option.some lp => ["--lens-position", toString lp]
      | Option.none => [])
  ++ (if camera_config.encoding ≠ "jpg" then ["--encoding", camera_config.encoding] else [])
  ++ (if camera_config.raw then ["--raw"] else [])

/-- C7: the subprocess backend's command line always contains the contiguous
resolution/quality/AWB flag block derived from the config, and everything
after the fixed `rpicam-still -o <path>` prelude is a pure function of the
config alone (equal configs yield equal flag lists regardless of output
path). -/
theorem c7_capture_command_flags (camera_config : CameraConfig) (p p' : String) :
    (∃ pre suf, capture_command camera_config p =
      pre ++ ["--width", toString camera_config.img_size.1,
              "--height", toString camera_config.img_size.2,
              "--quality", toString camera_config.quality,
              "--awb", camera_config.awb] ++ suf)
    ∧ (capture_command camera_config p).drop 3 = (capture_command camera_config p').drop 3 := by
  constructor
  · refine ⟨["rpicam-still", "-o", p],
      ["--buffer-count", toString camera_config.buffer_count,
       "--camera", toString camera_config.camera_index]
      ++ (if camera_config.timeout = 0 then ["--immediate"]
          else ["-t", toString camera_config.timeout])
      ++ (if camera_config.nopreview then ["-n"] else [])
      ++ (if camera_config.vflip then ["--vflip"] else [])
      ++ (if camera_config.hflip then ["--hflip"] else [])
      ++ (if camera_config.autofocus_on_capture then ["--autofocus-on-capture"] else [])
      ++ (if camera_config.thumbnail then ["--thumb", "320:240:70"] else [])
      ++ (if camera_config.zsl then ["--zsl"] else [])
      ++ (match camera_config.lens_position with
          | Option.some lp => ["--lens-position", toString lp]
          | Option.none => [])
      ++ (if camera_config.encoding ≠ "jpg" then ["--encoding", camera_config.encoding] else [])
      ++ (if camera_config.raw then ["--raw"] else []), ?_⟩
    simp [capture_command]
  · simp [capture_command]

/-! ### JSON documents and the `json.dumps` serializer

`manifestHandler.append_manifest_record` writes `json.dumps(record.to_dict(),
ensure_ascii=False) + "\n"` to the manifest file.  `Json` models the Python
dict passed in; the serializer below mirrors `json.dumps` with its default
separators (`", "` and `": "`) and its escaping of `"`, `\` and control
characters inside strings (`ensure_ascii=False` leaves other characters
as they are). -/

/-- JSON documents: the shape of the dictionaries the manifest logger
serializes. -/
inductive Json where
  | null
  | bool (b : Bool)
  | int (n : ℤ)
  | str (s : String)
  | arr (items : List Json)
  | obj (fields : List (String × Json))

theorem nmem_cons {c a : Char} {l : List Char} (h1 : c ≠ a) (h2 : c ∉ l) : c ∉ a :: l :=
  fun h => (List.mem_cons.1 h).elim h1 h2

theorem nmem_append {c : Char} {l₁ l₂ : List Char} (h1 : c ∉ l₁) (h2 : c ∉ l₂) :
    c ∉ l₁ ++ l₂ :=
  fun h => (List.mem_append.1 h).elim h1 h2

/-- Lower-case hexadecimal digit, also used for the decimal digits `0`–`9`. -/
def hexDigit (n : ℕ) : Char :=
  match n with
  | 0 => '0' | 1 => '1' | 2 => '2' | 3 => '3' | 4 => '4'
  | 5 => '5' | 6 => '6' | 7 => '7' | 8 => '8' | 9 => '9'
  | 10 => 'a' | 11 => 'b' | 12 => 'c' | 13 => 'd' | 14 => 'e'
  | _ => 'f'

/-- Decimal digits of a natural number (fuel-driven; `fuel ≥` the number of
digits, which `n + 1` always is). -/
def natDigits : ℕ → ℕ → List Char
  | 0, _ => []
  | fuel + 1, n =>
    if n < 10 then [hexDigit n] else natDigits fuel (n / 10) ++ [hexDigit (n % 10)]

/-- Decimal representation of an integer, as Python's `str`/`json.dumps`
print it. -/
def intRepr (n : ℤ) : List Char :=
  if n < 0 then '-' :: natDigits (n.natAbs + 1) n.natAbs else natDigits (n.natAbs + 1) n.natAbs

/-- Escaping of one character inside a JSON string literal, as
`json.dumps(..., ensure_ascii=False)` performs it. -/
def escapeChar (c : Char) : List Char :=
  if c = '\\' then ['\\', '\\']
  else if c = '"' then ['\\', '"']
  else if c = '\n' then ['\\', 'n']
  else if c = '\r' then ['\\', 'r']
  else if c = '\t' then ['\\', 't']
  else if c = '\x08' then ['\\', 'b']
  else if c = '\x0c' then ['\\', 'f']
  else if c.toNat < 32 then
    ['\\', 'u', '0', '0', hexDigit (c.toNat / 16), hexDigit (c.toNat % 16)]
  else [c]

/-- A JSON string literal: quote, escaped characters, quote. -/
def serializeString (s : String) : List Char :=
  '"' :: (s.data.map escapeChar).flatten ++ ['"']

mutual
/-- The output of `json.dumps(·, ensure_ascii=False)` on a document. -/
def serializeJson : Json → List Char
  | .null => "null".data
  | .bool true => "true".data
  | .bool false => "false".data
  | .int n => intRepr n
  | .str s => serializeString s
  | .arr items => '[' :: serializeItems items ++ [']']
  | .obj fields => '\x7b' :: serializeFields fields ++ ['\x7d']

/-- Array elements joined by the default `", "` separator. -/
def serializeItems : List Json → List Char
  | [] => []
  | [j] => serializeJson j
  | j :: j' :: rest => serializeJson j ++ ',' :: ' ' :: serializeItems (j' :: rest)

/-- Object entries, each `key: value`, joined by `", "`. -/
def serializeFields : List (String × Json) → List Char
  | [] => []
  | [(k, v)] => serializeString k ++ ':' :: ' ' :: serializeJson v
  | (k, v) :: f :: rest =>
    serializeString k ++ ':' :: ' ' :: serializeJson v ++ ',' :: ' ' :: serializeFields (f :: rest)
end

theorem hexDigit_ne_nl (n : ℕ) : hexDigit n ≠ '\n' := by
  unfold hexDigit; split <;> decide

theorem natDigits_ne_nl : ∀ fuel n, '\n' ∉ natDigits fuel n
  | 0, n => List.not_mem_nil _
  | fuel + 1, n => by
    rw [natDigits]
    split
    · exact nmem_cons (fun h => hexDigit_ne_nl n h.symm) (List.not_mem_nil _)
    · exact nmem_append (natDigits_ne_nl fuel (n / 10))
        (nmem_cons (fun h => hexDigit_ne_nl (n % 10) h.symm) (List.not_mem_nil _))

theorem intRepr_ne_nl (n : ℤ) : '\n' ∉ intRepr n := by
  unfold intRepr
  split
  · exact nmem_cons (by decide) (natDigits_ne_nl _ _)
  · exact natDigits_ne_nl _ _

theorem escapeChar_ne_nl (c : Char) : '\n' ∉ escapeChar c := by
  unfold escapeChar
  split
  · decide
  split
  · decide
  split
  · decide
  split
  · decide
  split
  · decide
  split
  · decide
  split
  · decide
  split
  · exact nmem_cons (by decide) (nmem_cons (by decide) (nmem_cons (by decide)
      (nmem_cons (by decide) (nmem_cons (fun h => hexDigit_ne_nl _ h.symm)
        (nmem_cons (fun h => hexDigit_ne_nl _ h.symm) (List.not_mem_nil _))))))
  · rename_i h1 h2 h3 h4 h5 h6 h7 h8
    exact nmem_cons (fun h => h3 h.symm) (List.not_mem_nil _)

theorem serializeString_ne_nl (s : String) : '\n' ∉ serializeString s := by
  refine nmem_cons (by decide) (nmem_append ?_ (by decide))
  intro h
  obtain ⟨l, hl, hc⟩ := List.mem_flatten.1 h
  obtain ⟨c, _, rfl⟩ := List.mem_map.1 hl
  exact escapeChar_ne_nl c hc

mutual
/-- A serialized JSON document never contains a raw newline: every newline in
string data is escaped, so each `json.dumps` output is a single line. -/
theorem serializeJson_ne_nl : ∀ j, '\n' ∉ serializeJson j
  | .null => by rw [serializeJson]; decide
  | .bool true => by rw [serializeJson]; decide
  | .bool false => by rw [serializeJson]; decide
  | .int n => by rw [serializeJson]; exact intRepr_ne_nl n
  | .str s => by rw [serializeJson]; exact serializeString_ne_nl s
  | .arr items => by
    rw [serializeJson]
    exact nmem_cons (by decide) (nmem_append (serializeItems_ne_nl items) (by decide))
  | .obj fields => by
    rw [serializeJson]
    exact nmem_cons (by decide) (nmem_append (serializeFields_ne_nl fields) (by decide))

theorem serializeItems_ne_nl : ∀ l, '\n' ∉ serializeItems l
  | [] => by rw [serializeItems]; exact List.not_mem_nil _
  | [j] => by rw [serializeItems]; exact serializeJson_ne_nl j
  | j :: j' :: rest => by
    rw [serializeItems]
    exact nmem_append (serializeJson_ne_nl j)
      (nmem_cons (by decide) (nmem_cons (by decide) (serializeItems_ne_nl (j' :: rest))))

theorem serializeFields_ne_nl : ∀ f, '\n' ∉ serializeFields f
  | [] => by rw [serializeFields]; exact List.not_mem_nil _
  | [(k, v)] => by
    rw [serializeFields]
    exact nmem_append (serializeString_ne_nl k)
      (nmem_cons (by decide) (nmem_cons (by decide) (serializeJson_ne_nl v)))
  | (k, v) :: f :: rest => by
    rw [serializeFields]
    exact nmem_append
      (nmem_append (serializeString_ne_nl k)
        (nmem_cons (by decide) (nmem_cons (by decide) (serializeJson_ne_nl v))))
      (nmem_cons (by decide) (nmem_cons (by decide) (serializeFields_ne_nl (f :: rest))))
end

/-! ### Text lines and the manifest file model -/

/-- Splits a character stream into its text lines: a `'\n'` ends a line, and a
final fragment without a trailing newline forms one last line (so a file that
ends in `'\n'` has no empty phantom line, matching line counting for JSONL
files). -/
def linesAux (acc : List Char) : List Char → List (List Char)
  | [] => if acc.isEmpty then [] else [acc.reverse]
  | c :: rest => if c = '\n' then acc.reverse :: linesAux [] rest else linesAux (c :: acc) rest

/-- The lines of a file's content. -/
def linesOf (s : List Char) : List (List Char) := linesAux [] s

/-- A file content that is empty or ends with a newline — the invariant of
every file written exclusively through manifest appends. -/
def Terminated (s : List Char) : Prop := s = [] ∨ s.getLast? = some '\n'

theorem linesAux_nl (acc rest : List Char) :
    linesAux acc ('\n' :: rest) = acc.reverse :: linesAux [] rest := by
  rw [linesAux]; simp

theorem linesAux_other {c : Char} (hc : c ≠ '\n') (acc rest : List Char) :
    linesAux acc (c :: rest) = linesAux (c :: acc) rest := by
  rw [linesAux, if_neg hc]

theorem linesAux_line (t : List Char) (ht : '\n' ∉ t) :
    ∀ acc rest, linesAux acc (t ++ '\n' :: rest) = (acc.reverse ++ t) :: linesAux [] rest := by
  induction t with
  | nil => intro acc rest; rw [List.nil_append, linesAux_nl, List.append_nil]
  | cons c t ih =>
    intro acc rest
    have hc : c ≠ '\n' := fun h => ht (h ▸ List.mem_cons_self c t)
    have ht' : '\n' ∉ t := fun h => ht (List.mem_cons_of_mem c h)
    rw [List.cons_append, linesAux_other hc, ih ht' (c :: acc) rest]
    simp

theorem linesAux_append_terminated :
    ∀ (s : List Char), s.getLast? = some '\n' →
      ∀ acc u, linesAux acc (s ++ u) = linesAux acc s ++ linesAux [] u := by
  intro s
  induction s with
  | nil => intro h; simp at h
  | cons c s ih =>
    intro h acc u
    match s, ih, h with
    | [], _, h =>
      have hc : c = '\n' := by simpa using h
      subst hc
      rw [List.cons_append, List.nil_append, linesAux_nl, linesAux_nl]
      rw [linesAux]
      simp
    | c' :: s', ih, h =>
      have h' : (c' :: s').getLast? = some '\n' := by
        rwa [List.getLast?_cons_cons] at h
      by_cases hc : c = '\n'
      · subst hc
        rw [List.cons_append, linesAux_nl, linesAux_nl, ih h' [] u, List.cons_append]
      · rw [List.cons_append, linesAux_other hc, linesAux_other hc, ih h' (c :: acc) u]

/-- Appending one newline-free line plus `'\n'` to a terminated file adds
exactly that one line. -/
theorem linesOf_append_line (s t : List Char) (hs : Terminated s) (ht : '\n' ∉ t) :
    linesOf (s ++ (t ++ ['\n'])) = linesOf s ++ [t] := by
  have key : linesAux [] (t ++ ['\n']) = [t] := by
    have := linesAux_line t ht [] []
    simpa [linesAux] using this
  rcases hs with rfl | hs
  · rw [List.nil_append, linesOf, linesOf, key]
    simp [linesAux]
  · rw [linesOf, linesOf, linesAux_append_terminated s hs [] (t ++ ['\n']), key]

theorem terminated_append_line (s t : List Char) :
    Terminated (s ++ (t ++ ['\n'])) := by
  right
  rw [← List.append_assoc]
  simp

/-- The file system visible to the manifest logger: a map from path to file
content.  A file that was never written is empty, matching `open(path, "a")`
semantics. -/
def FS := String → List Char

/-- Embedding of the `record_type` dispatch in
`manifestHandler.append_manifest_record`: `"project"` and `"capture"` select
their manifest file names; anything else raises
`ValueError("record_type must be 'capture' or 'project'")` before any write. -/
def manifest_filename (record_type : String) : Except String String :=
  if record_type = "project" then .ok "project_manifest.jsonl"
  else if record_type = "capture" then .ok "manifest.jsonl"
  else .error "record_type must be 'capture' or 'project'"

/-- The manifest file path selected for a record type (for the two valid
types). -/
def manifest_path (project_root record_type : String) : String :=
  project_root ++ "/metadata/" ++
    (if record_type = "project" then "project_manifest.jsonl" else "manifest.jsonl")

/-- Embedding of `manifestHandler.append_manifest_record`: select the manifest
file under `<project_root>/metadata/`, then append
`json.dumps(record.to_dict(), ensure_ascii=False) + "\n"` to it (the
flush/fsync makes the write durable; the model keeps only the resulting
content).  An invalid `record_type` raises before anything is written. -/
def append_manifest_record (fs : FS) (project_root : String) (record : Json)
    (record_type : String) : Except String FS :=
  match manifest_filename record_type with
  | .error e => .error e
  | .ok name =>
    let p := project_root ++ "/metadata/" ++ name
    .ok (fun q => if q = p then fs q ++ (serializeJson record ++ ['\n']) else fs q)

/-- A sequence of `append_manifest_record` calls, in call order. -/
def append_manifest_records (fs : FS) (project_root : String) :
    List Json → String → Except String FS
  | [], _ => .ok fs
  | r :: rest, record_type =>
    match append_manifest_record fs project_root r record_type with
    | .error e => .error e
    | .ok fs' => append_manifest_records fs' project_root rest record_type

theorem append_manifest_records_ok (project_root : String) (record_type : String)
    (hk : record_type = "capture" ∨ record_type = "project") :
    ∀ (records : List Json) (fs : FS),
      Terminated (fs (manifest_path project_root record_type)) →
      ∃ fs', append_manifest_records fs project_root records record_type = .ok fs'
        ∧ linesOf (fs' (manifest_path project_root record_type)) =
            linesOf (fs (manifest_path project_root record_type)) ++ records.map serializeJson
        ∧ Terminated (fs' (manifest_path project_root record_type))
        ∧ ∀ p, p ≠ manifest_path project_root record_type → fs' p = fs p := by
  intro records
  induction records with
  | nil =>
    intro fs hterm
    exact ⟨fs, rfl, by simp, hterm, fun _ _ => rfl⟩
  | cons r rest ih =>
    intro fs hterm
    have hname : manifest_filename record_type =
        .ok (if record_type = "project" then "project_manifest.jsonl" else "manifest.jsonl") := by
      rcases hk with rfl | rfl <;> simp [manifest_filename]
    have hpath : (project_root ++ "/metadata/" ++
        (if record_type = "project" then "project_manifest.jsonl" else "manifest.jsonl")) =
        manifest_path project_root record_type := rfl
    set path := manifest_path project_root record_type with hpathdef
    set fs1 : FS := fun q => if q = path then fs q ++ (serializeJson r ++ ['\n']) else fs q with hfs1
    have happ : append_manifest_record fs project_root r record_type = .ok fs1 := by
      rw [append_manifest_record, hname]
      simp only [hfs1, hpath]
    have hfs1path : fs1 path = fs path ++ (serializeJson r ++ ['\n']) := by
      simp [hfs1]
    have hterm1 : Terminated (fs1 path) := by
      rw [hfs1path]; exact terminated_append_line _ _
    obtain ⟨fs', hok, hlines, hterm', hother⟩ := ih fs1 hterm1
    refine ⟨fs', ?_, ?_, hterm', ?_⟩
    · rw [append_manifest_records, happ]
      exact hok
    · rw [hlines, hfs1path, linesOf_append_line _ _ hterm (serializeJson_ne_nl r)]
      simp
    · intro p hp
      rw [hother p hp]
      simp [hfs1, hp]

/-- C2: `N` sequential manifest appends with a valid kind succeed, append
exactly `N` lines in call order — each line the `json.dumps` serialization of
the record passed in, free of raw newlines hence independently parseable —
touch no other file, and any other kind is rejected with a `ValueError`
(and, the `Except.error` carrying no state, writes nothing). -/
theorem c2_manifest_append_ordered (fs : FS) (project_root : String)
    (records : List Json) (record_type : String)
    (hk : record_type = "capture" ∨ record_type = "project")
    (hterm : Terminated (fs (manifest_path project_root record_type))) :
    (∃ fs', append_manifest_records fs project_root records record_type = .ok fs'
      ∧ linesOf (fs' (manifest_path project_root record_type)) =
          linesOf (fs (manifest_path project_root record_type)) ++ records.map serializeJson
      ∧ (linesOf (fs' (manifest_path project_root record_type))).length =
          (linesOf (fs (manifest_path project_root record_type))).length + records.length
      ∧ (∀ p, p ≠ manifest_path project_root record_type → fs' p = fs p))
    ∧ (∀ r ∈ records, '\n' ∉ serializeJson r)
    ∧ (∀ k', k' ≠ "capture" → k' ≠ "project" → ∀ (fs₀ : FS) (r : Json),
        append_manifest_record fs₀ project_root r k' =
          .error "record_type must be 'capture' or 'project'") := by
  refine ⟨?_, fun r _ => serializeJson_ne_nl r, fun k' hc hp fs₀ r => ?_⟩
  · obtain ⟨fs', hok, hlines, _, hother⟩ :=
      append_manifest_records_ok project_root record_type hk records fs hterm
    exact ⟨fs', hok, hlines, by rw [hlines]; simp, hother⟩
  · rw [append_manifest_record, manifest_filename, if_neg hp, if_neg hc]

/-- Witness for C2 at a concrete input: two records (one with a newline inside
a string field) appended under kind `"capture"` to an empty file system. -/
theorem c2_manifest_append_ordered_witness :
    ∃ fs', append_manifest_records (fun _ => []) "proj"
        [Json.obj [("status", Json.str "suc\ncess")], Json.null] "capture" = .ok fs'
      ∧ linesOf (fs' (manifest_path "proj" "capture")) =
          linesOf ((fun (_ : String) => ([] : List Char)) (manifest_path "proj" "capture")) ++
            [Json.obj [("status", Json.str "suc\ncess")], Json.null].map serializeJson
      ∧ (linesOf (fs' (manifest_path "proj" "capture"))).length =
          (linesOf ((fun (_ : String) => ([] : List Char)) (manifest_path "proj" "capture"))).length + 2
      ∧ (∀ p, p ≠ manifest_path "proj" "capture" → fs' p = (fun _ => []) p) :=
  (c2_manifest_append_ordered (fun _ => []) "proj"
    [Json.obj [("status", Json.str "suc\ncess")], Json.null] "capture"
    (Or.inl rfl) (Or.inl rfl)).1

/-! ### Camera registry (`capture/camera_registry.py`)

`Picamera2.global_camera_info()` is modelled as an explicit list of raw info
dictionaries (the "world"); the registry JSON document's `"cameras"` object is
an association list from hardware id to entry. -/

/-- One raw camera info dict as reported by `Picamera2.global_camera_info()`;
each key may be absent (the code reads them with `info.get(key, default)`). -/
structure RawInfo where
  Model : Option String
  Id : Option String
  Location : Option String

/-- The info dictionary `get_camera_hardware_id` returns alongside the
hardware id. -/
structure CameraInfo where
  model : String
  serial : Option String
  location : String
  id : String
  index : ℕ

/-- Python `str.split(sep)` for a one-character separator: splits at every
occurrence and keeps empty parts (`"".split(sep) == [""]`). -/
def pySplitAux (sep : Char) (acc : List Char) : List Char → List (List Char)
  | [] => [acc.reverse]
  | c :: rest =>
    if c = sep then acc.reverse :: pySplitAux sep [] rest else pySplitAux sep (c :: acc) rest

/-- Python `s.split(sep)` on character lists. -/
def pySplit (sep : Char) (s : List Char) : List (List Char) := pySplitAux sep [] s

/-- Python `s.replace(pat, rep)` (all non-overlapping occurrences, left to
right), fuel-driven; one character is consumed per step, so `s.length` fuel
suffices for a non-empty pattern, the only way it is used here. -/
def pyReplaceFuel (pat rep : List Char) : ℕ → List Char → List Char
  | 0, l => l
  | _ + 1, [] => []
  | fuel + 1, c :: rest =>
    if pat.isPrefixOf (c :: rest) then rep ++ pyReplaceFuel pat rep fuel ((c :: rest).drop pat.length)
    else c :: pyReplaceFuel pat rep fuel rest

/-- Python `s.replace(pat, rep)` on character lists. -/
def pyReplace (s pat rep : List Char) : List Char := pyReplaceFuel pat rep s.length s

/-- Embedding of the static method `CameraRegistry.get_camera_hardware_id`:
look up the raw info at the index (out of range gives Python's `(None, {})`,
merged into `Option.none` here), then derive the stable id.  A non-empty `Id`
path yields `model_<i2c-bus>` (or `model_<last path part>` without an `i2c@`
segment); an empty or missing `Id` falls back to `model_idx<camera_index>`. -/
def get_camera_hardware_id (world : List RawInfo) (camera_index : ℕ) :
    Option (String × CameraInfo) :=
  match world.get? camera_index with
  | Option.none => Option.none
  | Option.some info =>
    let model := info.Model.getD "unknown"
    let camera_id := info.Id.getD ""
    let location := info.Location.getD ""
    let hw_id :=
      if camera_id ≠ "" then
        let id_parts := pySplit '/' camera_id.data
        let i2c_part := id_parts.filter (fun p => List.isPrefixOf "i2c@".data p)
        match i2c_part with
        | p :: _ => model ++ "_" ++ String.mk (pyReplace p "i2c@".data "".data)
        | [] => model ++ "_" ++ String.mk (id_parts.getLastD [])
      else
        model ++ "_idx" ++ toString camera_index
    Option.some (hw_id,
      { model := model, serial := Option.none, location := location,
        id := camera_id, index := camera_index })

/-- C4 counterexample: the same raw hardware info (model `"imx519"`, empty
`Id` string) enumerated at index 0 and at index 1 derives two different
identity strings, so the derived identity is not a function of the raw
hardware info alone. -/
theorem c4_hardware_id_index_dependent_counterexample :
    (get_camera_hardware_id
        [⟨Option.some "imx519", Option.some "", Option.none⟩,
         ⟨Option.some "imx519", Option.some "", Option.none⟩] 0).map Prod.fst =
      Option.some "imx519_idx0"
    ∧ (get_camera_hardware_id
        [⟨Option.some "imx519", Option.some "", Option.none⟩,
         ⟨Option.some "imx519", Option.some "", Option.none⟩] 1).map Prod.fst =
      Option.some "imx519_idx1"
    ∧ ("imx519_idx0" : String) ≠ "imx519_idx1" := by
  refine ⟨rfl, rfl, by decide⟩

/-- C4 (amended): when the raw info carries a non-empty `Id` string, the
derived hardware identity is a deterministic function of the raw info alone —
two derivations of the same raw record, at any enumeration indices in any
worlds, yield the same identity string.  (With an empty `Id` the fallback
identity embeds the camera index, per the counterexample.) -/
theorem c4_hardware_id_deterministic (w w' : List RawInfo) (i i' : ℕ) (r : RawInfo)
    (h : w.get? i = Option.some r) (h' : w'.get? i' = Option.some r)
    (hid : r.Id.getD "" ≠ "") :
    (get_camera_hardware_id w i).map Prod.fst =
      (get_camera_hardware_id w' i').map Prod.fst := by
  rw [get_camera_hardware_id, get_camera_hardware_id, h, h']
  simp only [Option.map_some]
  rw [if_pos hid, if_pos hid]
  rfl

/-- Witness for C4's amended theorem: one sensor record with a real `Id` path
seen at index 0 of one world and index 1 of another derives equal ids. -/
theorem c4_hardware_id_deterministic_witness :
    (get_camera_hardware_id
        [⟨Option.some "imx519",
          Option.some "/base/axi/pcie@1000120000/rp1/i2c@88000/imx519@1a", Option.none⟩] 0).map
        Prod.fst =
      (get_camera_hardware_id
        [⟨Option.some "other", Option.none, Option.none⟩,
         ⟨Option.some "imx519",
          Option.some "/base/axi/pcie@1000120000/rp1/i2c@88000/imx519@1a", Option.none⟩] 1).map
        Prod.fst :=
  c4_hardware_id_deterministic _ _ 0 1
    ⟨Option.some "imx519",
     Option.some "/base/axi/pcie@1000120000/rp1/i2c@88000/imx519@1a", Option.none⟩
    rfl rfl (by decide)

/-- One entry of the registry's `"cameras"` object, as `register_camera`
creates it. -/
structure RegistryEntry where
  model : String
  serial : Option String
  location : String
  machine_id : Option String
  label : Option String
  last_seen_index : ℕ
  first_registered_at : String
  last_seen_at : String
  calibration : Json

/-- In-place update of the entry stored under a key of the registry's
association list (Python dict item mutation). -/
def updateEntry : List (String × RegistryEntry) → String → (RegistryEntry → RegistryEntry) →
    List (String × RegistryEntry)
  | [], _, _ => []
  | (a, b) :: rest, k, f =>
    if a = k then (a, f b) :: updateEntry rest k f else (a, b) :: updateEntry rest k f

/-- Python dict assignment `d[k] = v`: replace the entry if the key exists,
otherwise add it. -/
def setEntry (reg : List (String × RegistryEntry)) (k : String) (v : RegistryEntry) :
    List (String × RegistryEntry) :=
  if (reg.lookup k).isSome then reg.map (fun kv => if kv.1 = k then (k, v) else kv)
  else reg ++ [(k, v)]

/-- Embedding of `CameraRegistry.register_camera`: derive the hardware id for
the index (failure returns `None` and leaves the registry untouched); if the
id is already registered and `force` is not set, update only
`last_seen_index`/`last_seen_at`; otherwise store a fresh entry with the
supplied calibration data (or `{}`).  The registry is saved afterwards in
either case; `now` stands for `datetime.now(timezone.utc).isoformat()`. -/
def register_camera (world : List RawInfo) (reg : List (String × RegistryEntry))
    (camera_index : ℕ) (calibration_data : Option Json) (force : Bool) (now : String) :
    Option String × List (String × RegistryEntry) :=
  match get_camera_hardware_id world camera_index with
  | Option.none => (Option.none, reg)
  | Option.some (hw_id, info) =>
    if (reg.lookup hw_id).isSome ∧ force = false then
      (Option.some hw_id,
        updateEntry reg hw_id (fun e => { e with last_seen_index := camera_index, last_seen_at := now }))
    else
      (Option.some hw_id,
        setEntry reg hw_id
          { model := info.model, serial := info.serial, location := info.location,
            machine_id := Option.none, label := Option.none,
            last_seen_index := camera_index, first_registered_at := now,
            last_seen_at := now, calibration := calibration_data.getD (Json.obj []) })

theorem lookup_updateEntry (reg : List (String × RegistryEntry)) (k : String)
    (f : RegistryEntry → RegistryEntry) :
    (updateEntry reg k f).lookup k = (reg.lookup k).map f := by
  induction reg with
  | nil => rfl
  | cons kv rest ih =>
    obtain ⟨a, b⟩ := kv
    rw [updateEntry]
    by_cases hk : a = k
    · rw [if_pos hk]
      subst hk
      simp only [List.lookup, beq_self_eq_true]
      rfl
    · rw [if_neg hk]
      have hbeq : (k == a) = false := beq_eq_false_iff_ne.mpr (fun h => hk h.symm)
      simp only [List.lookup, hbeq]
      exact ih

/-- C3: registering an already-known hardware identity with `force = false`
returns the same identity and keeps every stored field of the entry —
calibration profile, model, serial, location, machine id, label and first
registration time — unchanged, updating only `last_seen_index` and
`last_seen_at`. -/
theorem c3_register_camera_idempotent (world : List RawInfo)
    (reg : List (String × RegistryEntry)) (camera_index : ℕ) (cal : Option Json)
    (now : String) (hw_id : String) (info : CameraInfo) (e : RegistryEntry)
    (hhw : get_camera_hardware_id world camera_index = Option.some (hw_id, info))
    (hreg : reg.lookup hw_id = Option.some e) :
    (register_camera world reg camera_index cal false now).1 = Option.some hw_id
    ∧ ∃ e', (register_camera world reg camera_index cal false now).2.lookup hw_id = Option.some e'
        ∧ e'.calibration = e.calibration ∧ e'.model = e.model ∧ e'.serial = e.serial
        ∧ e'.location = e.location ∧ e'.machine_id = e.machine_id ∧ e'.label = e.label
        ∧ e'.first_registered_at = e.first_registered_at
        ∧ e'.last_seen_index = camera_index ∧ e'.last_seen_at = now := by
  have hsome : (List.lookup hw_id reg).isSome = true := by rw [hreg]; rfl
  simp only [register_camera, hhw]
  split
  · refine ⟨rfl, { e with last_seen_index := camera_index, last_seen_at := now }, ?_,
      rfl, rfl, rfl, rfl, rfl, rfl, rfl, rfl, rfl⟩
    rw [lookup_updateEntry, hreg]
    rfl
  · rename_i hcond
    exact (hcond ⟨hsome, by trivial⟩).elim

/-- Witness for C3: a concrete world with one `imx519` on i2c bus `88000`
already registered; re-registering it without force preserves the entry. -/
theorem c3_register_camera_idempotent_witness :
    (register_camera
        [⟨Option.some "imx519",
          Option.some "/base/axi/pcie@1000120000/rp1/i2c@88000/imx519@1a", Option.none⟩]
        [("imx519_88000",
          { model := "imx519", serial := Option.none, location := "2",
            machine_id := Option.some "CAM-L", label := Option.none, last_seen_index := 0,
            first_registered_at := "2026-01-01T00:00:00", last_seen_at := "2026-01-01T00:00:00",
            calibration := Json.obj [("focus", Json.obj [("success", Json.bool true)])] })]
        0 Option.none false "2026-02-02T00:00:00").1 = Option.some "imx519_88000"
    ∧ ∃ e', (register_camera
        [⟨Option.some "imx519",
          Option.some "/base/axi/pcie@1000120000/rp1/i2c@88000/imx519@1a", Option.none⟩]
        [("imx519_88000",
          { model := "imx519", serial := Option.none, location := "2",
            machine_id := Option.some "CAM-L", label := Option.none, last_seen_index := 0,
            first_registered_at := "2026-01-01T00:00:00", last_seen_at := "2026-01-01T00:00:00",
            calibration := Json.obj [("focus", Json.obj [("success", Json.bool true)])] })]
        0 Option.none false "2026-02-02T00:00:00").2.lookup "imx519_88000" = Option.some e'
      ∧ e'.calibration = Json.obj [("focus", Json.obj [("success", Json.bool true)])]
      ∧ e'.model = "imx519" ∧ e'.serial = Option.none ∧ e'.location = "2"
      ∧ e'.machine_id = Option.some "CAM-L" ∧ e'.label = Option.none
      ∧ e'.first_registered_at = "2026-01-01T00:00:00"
      ∧ e'.last_seen_index = 0 ∧ e'.last_seen_at = "2026-02-02T00:00:00" := by
  obtain ⟨h1, e', h2, hc, hm, hs, hl, hmi, hla, hf, hi, ht⟩ :=
    c3_register_camera_idempotent
      [⟨Option.some "imx519",
        Option.some "/base/axi/pcie@1000120000/rp1/i2c@88000/imx519@1a", Option.none⟩]
      [("imx519_88000",
        { model := "imx519", serial := Option.none, location := "2",
          machine_id := Option.some "CAM-L", label := Option.none, last_seen_index := 0,
          first_registered_at := "2026-01-01T00:00:00", last_seen_at := "2026-01-01T00:00:00",
          calibration := Json.obj [("focus", Json.obj [("success", Json.bool true)])] })]
      0 Option.none "2026-02-02T00:00:00" "imx519_88000"
      { model := "imx519", serial := Option.none, location := "",
        id := "/base/axi/pcie@1000120000/rp1/i2c@88000/imx519@1a", index := 0 }
      { model := "imx519", serial := Option.none, location := "2",
        machine_id := Option.some "CAM-L", label := Option.none, last_seen_index := 0,
        first_registered_at := "2026-01-01T00:00:00", last_seen_at := "2026-01-01T00:00:00",
        calibration := Json.obj [("focus", Json.obj [("success", Json.bool true)])] }
      rfl rfl
  exact ⟨h1, e', h2, hc, hm, hs, hl, hmi, hla, hf, hi, ht⟩

/-! ### Calibration (`capture/calibration.py`)

The Picamera2 interactions are parameters of the embedding: the autofocus
cycle outcome, the metadata values read back (`LensPosition`, `ColourGains`,
`ColourTemperature`) and the per-frame gains stream. -/

/-- Python float results that can be `float('inf')`. -/
inductive PyFloat where
  | finite (q : ℚ)
  | inf
  deriving DecidableEq

/-- The dictionary `CameraCalibration.calibrate_focus` returns. -/
structure FocusResult where
  success : Bool
  af_time : ℚ
  lens_position : Option ℚ
  distance_meters : Option PyFloat
  deriving DecidableEq

/-- Embedding of `CameraCalibration.calibrate_focus` after the autofocus
cycle ran: `success` is what `picam2.autofocus_cycle()` returned, and
`metadata_lens_position` is `capture_metadata().get("LensPosition")`.  On
success the lens position is recorded only when it is truthy (Python
`if lens_position:`, so a reported `0.0` is skipped), with the derived
distance `1 / lens_position` for positive values and infinity otherwise. -/
def calibrate_focus (success : Bool) (af_time : ℚ)
    (metadata_lens_position : Option ℚ) : FocusResult :=
  let result : FocusResult :=
    { success := success, af_time := af_time,
      lens_position := Option.none, distance_meters := Option.none }
  if success then
    match metadata_lens_position with
    | Option.some lens_position =>
      if lens_position ≠ 0 then
        let distance_meters :=
          if lens_position > 0 then PyFloat.finite (1 / lens_position) else PyFloat.inf
        { result with lens_position := Option.some lens_position,
                      distance_meters := Option.some distance_meters }
      else result
    | Option.none => result
  else result

/-- C5 counterexample: a successful autofocus cycle whose backend reports
`LensPosition = 0.0` leaves `lens_position` and `distance_meters` unset
(Python's `if lens_position:` treats `0.0` as falsy), while the claim demands
`lens_position = 0` with infinite distance. -/
theorem c5_focus_zero_lens_counterexample :
    (calibrate_focus true 1 (Option.some 0)).success = true
    ∧ (calibrate_focus true 1 (Option.some 0)).lens_position ≠ Option.some 0
    ∧ (calibrate_focus true 1 (Option.some 0)).distance_meters ≠ Option.some PyFloat.inf := by
  refine ⟨?_, ?_, ?_⟩ <;> simp [calibrate_focus]

/-- C5 (amended): for a successful autofocus cycle whose backend reports a
non-zero lens position `L`, the focus record has `success = true`,
`lens_position = L`, and `distance_meters = 1 / L` for `L > 0` and infinity
for `L < 0`; when `L = 0` is reported, both fields stay unset. -/
theorem c5_calibrate_focus_success (af_time L : ℚ) (hL : L ≠ 0) :
    (calibrate_focus true af_time (Option.some L)).success = true
    ∧ (calibrate_focus true af_time (Option.some L)).lens_position = Option.some L
    ∧ (calibrate_focus true af_time (Option.some L)).distance_meters =
        Option.some (if L > 0 then PyFloat.finite (1 / L) else PyFloat.inf) := by
  refine ⟨?_, ?_, ?_⟩ <;> simp [calibrate_focus, hL]

/-- Witness for C5's amended theorem: the spec's own scenario, `L = 4.0`,
yields `lens_position = 4` and `distance_meters = 0.25`. -/
theorem c5_calibrate_focus_success_witness :
    (4 : ℚ) ≠ 0
    ∧ (calibrate_focus true 1 (Option.some 4)).lens_position = Option.some 4
    ∧ (calibrate_focus true 1 (Option.some 4)).distance_meters =
        Option.some (PyFloat.finite 0.25) := by
  refine ⟨by norm_num, (c5_calibrate_focus_success 1 4 (by norm_num)).2.1, ?_⟩
  rw [(c5_calibrate_focus_success 1 4 (by norm_num)).2.2]
  norm_num

/-! ### Registry-driven configuration resolution (`capture/project_manager.py`) -/

/-- Python `dict.get(key)` on a JSON value: a lookup on objects, `None`
elsewhere (the registry entries this is applied to are always objects). -/
def Json.get : Json → String → Option Json
  | .obj fields, k => fields.lookup k
  | _, _ => Option.none

/-- Python truthiness of a JSON value. -/
def Json.truthy : Json → Bool
  | .null => false
  | .bool b => b
  | .int n => decide (n ≠ 0)
  | .str s => decide (s ≠ "")
  | .arr items => !items.isEmpty
  | .obj fields => !fields.isEmpty

/-- Python truthiness of a `dict.get` result (`None` is falsy). -/
def truthyOpt : Option Json → Bool
  | Option.none => false
  | Option.some j => j.truthy

/-- The configuration dictionary built by
`default_camera_config_from_registry`; `lens_position` is `Option.none` when
the key is absent from the dict. -/
structure ResolvedConfig where
  camera_index : ℕ
  img_size : ℤ × ℤ
  vflip : Bool
  hflip : Bool
  awb : String
  timeout : ℤ
  autofocus_on_capture : Bool
  buffer_count : ℤ
  thumbnail : Bool
  nopreview : Bool
  quality : ℤ
  zsl : Bool
  encoding : String
  raw : Bool
  lens_position : Option Json

/-- Embedding of `CameraRegistry.get_camera_by_index`: derive the hardware id
at the index and look its entry up (entry `Option.none` when the camera is
unregistered or the id underivable). -/
def get_camera_by_index (world : List RawInfo) (reg : List (String × RegistryEntry))
    (camera_index : ℕ) : Option String × Option RegistryEntry :=
  match get_camera_hardware_id world camera_index with
  | Option.some (hw_id, _) => (Option.some hw_id, reg.lookup hw_id)
  | Option.none => (Option.none, Option.none)

/-- The `"success"` value of the calibration's focus record of a registry
entry, as `default_camera_config_from_registry` reads it:
`camera_data.get("calibration", {}).get("focus", {}).get("success")`. -/
def focus_success_val (camera_data : Option RegistryEntry) : Option Json :=
  match camera_data with
  | Option.some d => Json.get ((Json.get d.calibration "focus").getD (Json.obj [])) "success"
  | Option.none => Option.none

/-- The base configuration dict of `default_camera_config_from_registry`:
resolution preset resolved with `IMG_SIZES["high"]` as default, autofocus on,
no `lens_position` key. -/
def base_config (camera_index : ℕ) (resolution : String) : ResolvedConfig :=
  { camera_index := camera_index,
    img_size := (IMG_SIZES.lookup resolution).getD (4624, 3472),
    vflip := false, hflip := false, awb := "indoor", timeout := 50,
    autofocus_on_capture := true, buffer_count := 2, thumbnail := false,
    nopreview := true, quality := 93, zsl := false, encoding := "jpg",
    raw := false, lens_position := Option.none }

/-- Embedding of `default_camera_config_from_registry`: the base
configuration keeps autofocus on and has no `lens_position` key; only when
the entry's `focus.success` is truthy is autofocus disabled and the stored
lens position applied (the `["lens_position"]` indexing raises `KeyError`,
modelled as `Except.error`, if that key were absent). -/
def default_camera_config_from_registry (world : List RawInfo)
    (reg : List (String × RegistryEntry)) (camera_index : ℕ) (resolution : String) :
    Except String ResolvedConfig :=
  let camera_data := (get_camera_by_index world reg camera_index).2
  let base := base_config camera_index resolution
  match camera_data with
  | Option.some d =>
    if truthyOpt (Json.get ((Json.get d.calibration "focus").getD (Json.obj [])) "success") then
      match Json.get d.calibration "focus" with
      | Option.some focus =>
        match Json.get focus "lens_position" with
        | Option.some lp =>
          .ok { base with autofocus_on_capture := false, lens_position := Option.some lp }
        | Option.none => .error "KeyError: lens_position"
      | Option.none => .error "KeyError: focus"
    else .ok base
  | Option.none => .ok base

/-- C6: when the registry entry is absent, has no calibration, or its
`focus.success` is `false` or absent, the resolved configuration keeps
autofocus enabled and sets no manual `lens_position`; conversely (for
boolean-valued `success` fields, the only kind calibration writes) autofocus
is disabled or a lens position applied only when `focus.success` is `true`. -/
theorem c6_config_autofocus_fallback (world : List RawInfo)
    (reg : List (String × RegistryEntry)) (camera_index : ℕ) (resolution : String)
    (hbool : ∀ v, focus_success_val (get_camera_by_index world reg camera_index).2 =
        Option.some v → ∃ b, v = Json.bool b) :
    (truthyOpt (focus_success_val (get_camera_by_index world reg camera_index).2) = false →
      ∃ cfg, default_camera_config_from_registry world reg camera_index resolution = .ok cfg
        ∧ cfg.autofocus_on_capture = true ∧ cfg.lens_position = Option.none)
    ∧ (∀ cfg, default_camera_config_from_registry world reg camera_index resolution = .ok cfg →
        cfg.autofocus_on_capture = false ∨ cfg.lens_position ≠ Option.none →
        focus_success_val (get_camera_by_index world reg camera_index).2 =
          Option.some (Json.bool true)) := by
  constructor
  · intro hfalsy
    match hcd : (get_camera_by_index world reg camera_index).2 with
    | Option.none =>
      refine ⟨base_config camera_index resolution, ?_, rfl, rfl⟩
      simp only [default_camera_config_from_registry, hcd]
    | Option.some d =>
      have hfoc : truthyOpt (Json.get ((Json.get d.calibration "focus").getD (Json.obj []))
          "success") = false := by
        rw [hcd] at hfalsy
        simpa [focus_success_val] using hfalsy
      refine ⟨base_config camera_index resolution, ?_, rfl, rfl⟩
      simp only [default_camera_config_from_registry, hcd]
      rw [if_neg (by simp [hfoc])]
  · intro cfg hok hset
    match hcd : (get_camera_by_index world reg camera_index).2 with
    | Option.none =>
      simp only [default_camera_config_from_registry, hcd] at hok
      cases hok
      rcases hset with h | h
      · simp [base_config] at h
      · exact absurd rfl h
    | Option.some d =>
      rw [hcd] at hbool
      by_cases htr : truthyOpt (Json.get ((Json.get d.calibration "focus").getD
          (Json.obj [])) "success") = true
      · cases hg : Json.get ((Json.get d.calibration "focus").getD (Json.obj []))
            "success" with
        | none =>
          rw [hg] at htr
          exact absurd htr (by decide)
        | some v =>
          have hsv : focus_success_val (Option.some d) = Option.some v := by
            rw [focus_success_val.eq_def]
            exact hg
          obtain ⟨b, rfl⟩ := hbool v hsv
          cases b
          · rw [hg] at htr
            exact absurd htr (by decide)
          · exact hsv
      · simp only [default_camera_config_from_registry, hcd] at hok
        rw [if_neg htr] at hok
        cases hok
        rcases hset with h | h
        · simp [base_config] at h
        · exact absurd rfl h

/-- Witness for C6: a registered camera whose calibration has
`focus.success = false` resolves to a config with autofocus on and no lens
position. -/
theorem c6_config_autofocus_fallback_witness :
    ∃ cfg, default_camera_config_from_registry
        [⟨Option.some "imx519",
          Option.some "/base/axi/pcie@1000120000/rp1/i2c@88000/imx519@1a", Option.none⟩]
        [("imx519_88000",
          { model := "imx519", serial := Option.none, location := "",
            machine_id := Option.none, label := Option.none, last_seen_index := 0,
            first_registered_at := "t0", last_seen_at := "t0",
            calibration := Json.obj [("focus",
              Json.obj [("success", Json.bool false), ("lens_position", Json.null)])] })]
        0 "high" = .ok cfg
      ∧ cfg.autofocus_on_capture = true ∧ cfg.lens_position = Option.none :=
  (c6_config_autofocus_fallback
    [⟨Option.some "imx519",
      Option.some "/base/axi/pcie@1000120000/rp1/i2c@88000/imx519@1a", Option.none⟩]
    [("imx519_88000",
      { model := "imx519", serial := Option.none, location := "",
        machine_id := Option.none, label := Option.none, last_seen_index := 0,
        first_registered_at := "t0", last_seen_at := "t0",
        calibration := Json.obj [("focus",
          Json.obj [("success", Json.bool false), ("lens_position", Json.null)])] })]
    0 "high"
    (fun v h => ⟨false, (Option.some.inj h).symm⟩)).1 (by decide)

/-! ### White-balance calibration (`CameraCalibration.calibrate_white_balance`) -/

/-- Python `max` over a non-empty list (`0` on the empty list, where Python
would raise; every use below is guarded by a non-emptiness check). -/
def pyMax : List ℚ → ℚ
  | [] => 0
  | x :: xs => xs.foldl max x

/-- Python `min` over a non-empty list (`0` on the empty list, as for
`pyMax`). -/
def pyMin : List ℚ → ℚ
  | [] => 0
  | x :: xs => xs.foldl min x

/-- The result dictionary of `calibrate_white_balance`.  `convergence_variance`
and `converged` model keys that are present only when set. -/
structure WBResult where
  success : Bool
  awb_gains : Option (ℚ × ℚ)
  colour_temperature : Option ℤ
  awb_mode_used : Option String
  frames_for_convergence : ℕ
  convergence_variance : Option (ℚ × ℚ)
  converged : Option Bool
  error : Option String

/-- The gain samples collected by the stabilization loop: one
`capture_metadata().get("ColourGains")` read per frame, keeping the frames
that reported gains. -/
def wbHistory (frame_gains : ℕ → Option (ℚ × ℚ)) (stabilization_frames : ℕ) :
    List (ℚ × ℚ) :=
  (List.range stabilization_frames).filterMap frame_gains

/-- Embedding of `CameraCalibration.calibrate_white_balance`:
`frame_gains i` is the `ColourGains` metadata of the `i`-th stabilization
frame, `final_gains`/`final_colour_temp` the final metadata read after the
loop.  Without final gains the result keeps `success = false`; with them,
when at least 10 samples were collected, the spread (max − min) of the last
10 samples per channel is recorded and `converged` is set exactly when both
spreads are below `0.05`.  The default number of stabilization frames is 30.
(A zero colour temperature is dropped by Python's
`int(colour_temp) if colour_temp else None`.) -/
def calibrate_white_balance (frame_gains : ℕ → Option (ℚ × ℚ))
    (final_gains : Option (ℚ × ℚ)) (final_colour_temp : Option ℤ)
    (stabilization_frames : ℕ := 30) : WBResult :=
  let result0 : WBResult :=
    { success := false, awb_gains := Option.none, colour_temperature := Option.none,
      awb_mode_used := Option.none, frames_for_convergence := stabilization_frames,
      convergence_variance := Option.none, converged := Option.none, error := Option.none }
  let awb_gains_history := wbHistory frame_gains stabilization_frames
  match final_gains with
  | Option.some g =>
    let result1 :=
      { result0 with
        success := true,
        awb_gains := Option.some g,
        colour_temperature :=
          (match final_colour_temp with
          | Option.some t => if t ≠ 0 then Option.some t else Option.none
          | Option.none => Option.none),
        awb_mode_used := Option.some "auto" }
    if 10 ≤ awb_gains_history.length then
      let recent_r := (awb_gains_history.drop (awb_gains_history.length - 10)).map Prod.fst
      let recent_b := (awb_gains_history.drop (awb_gains_history.length - 10)).map Prod.snd
      let variance_r := pyMax recent_r - pyMin recent_r
      let variance_b := pyMax recent_b - pyMin recent_b
      { result1 with
        convergence_variance := Option.some (variance_r, variance_b),
        converged := Option.some (decide (variance_r < 0.05) && decide (variance_b < 0.05)) }
    else result1
  | Option.none => result0

/-- C8 counterexample: a run with 10 stabilization frames that all report
gains `(1, 1)` — so at least 10 samples with zero spread per channel — but
whose final metadata read yields no gain pair leaves `converged` unset
(`None`), not `true`, although both spreads are below `0.05`. -/
theorem c8_wb_no_final_gains_counterexample :
    10 ≤ (wbHistory (fun _ => Option.some (1, 1)) 10).length
    ∧ (pyMax ((wbHistory (fun _ => Option.some (1, 1)) 10).drop
          ((wbHistory (fun _ => Option.some (1, 1)) 10).length - 10) |>.map Prod.fst) -
        pyMin ((wbHistory (fun _ => Option.some (1, 1)) 10).drop
          ((wbHistory (fun _ => Option.some (1, 1)) 10).length - 10) |>.map Prod.fst) < 0.05)
    ∧ (pyMax ((wbHistory (fun _ => Option.some (1, 1)) 10).drop
          ((wbHistory (fun _ => Option.some (1, 1)) 10).length - 10) |>.map Prod.snd) -
        pyMin ((wbHistory (fun _ => Option.some (1, 1)) 10).drop
          ((wbHistory (fun _ => Option.some (1, 1)) 10).length - 10) |>.map Prod.snd) < 0.05)
    ∧ (calibrate_white_balance (fun _ => Option.some (1, 1)) Option.none Option.none
        10).converged ≠ Option.some true := by
  have hh : wbHistory (fun _ => Option.some ((1 : ℚ), (1 : ℚ))) 10 =
      [(1, 1), (1, 1), (1, 1), (1, 1), (1, 1), (1, 1), (1, 1), (1, 1), (1, 1), (1, 1)] := by
    rfl
  refine ⟨by rw [hh]; decide, ?_, ?_, ?_⟩
  · rw [hh]
    norm_num [pyMax, pyMin, List.foldl]
  · rw [hh]
    norm_num [pyMax, pyMin, List.foldl]
  · intro h
    simp [calibrate_white_balance] at h

/-- C8 (amended): for a run that collects at least 10 gain samples and whose
final metadata read does yield a gain pair, `converged` is `true` exactly
when both channels' spreads (max − min of the last 10 samples) are below
`0.05`; a run that obtains no final gain pair yields `success = false`; and
the default number of stabilization frames is 30 (recorded in
`frames_for_convergence` of a default-argument call). -/
theorem c8_wb_convergence (frame_gains : ℕ → Option (ℚ × ℚ)) (g : ℚ × ℚ)
    (t : Option ℤ) (n : ℕ)
    (hlen : 10 ≤ (wbHistory frame_gains n).length) :
    ((calibrate_white_balance frame_gains (Option.some g) t n).converged = Option.some true ↔
      (pyMax ((wbHistory frame_gains n).drop ((wbHistory frame_gains n).length - 10)
          |>.map Prod.fst) -
        pyMin ((wbHistory frame_gains n).drop ((wbHistory frame_gains n).length - 10)
          |>.map Prod.fst) < 0.05
      ∧ pyMax ((wbHistory frame_gains n).drop ((wbHistory frame_gains n).length - 10)
          |>.map Prod.snd) -
        pyMin ((wbHistory frame_gains n).drop ((wbHistory frame_gains n).length - 10)
          |>.map Prod.snd) < 0.05))
    ∧ (∀ (fg : ℕ → Option (ℚ × ℚ)) (t' : Option ℤ) (n' : ℕ),
        (calibrate_white_balance fg Option.none t' n').success = false)
    ∧ (calibrate_white_balance frame_gains (Option.some g) t).frames_for_convergence = 30 := by
  refine ⟨?_, fun fg t' n' => by simp [calibrate_white_balance], ?_⟩
  · simp only [calibrate_white_balance]
    rw [if_pos hlen]
    simp [Bool.and_eq_true, decide_eq_true_eq]
  · by_cases h10 : 10 ≤ (wbHistory frame_gains 30).length <;>
      simp [calibrate_white_balance, h10]

/-- Witness for C8's amended theorem: 10 frames of identical gains `(2, 2)`
and a final read of `(2, 2)`; both spreads are 0, so `converged = true` holds
iff `0 < 0.05`, which `norm_num` confirms through the theorem's
biconditional. -/
theorem c8_wb_convergence_witness :
    10 ≤ (wbHistory (fun _ => Option.some (2, 2)) 10).length
    ∧ (calibrate_white_balance (fun _ => Option.some (2, 2)) (Option.some (2, 2))
        Option.none 10).converged = Option.some true := by
  have hlen : 10 ≤ (wbHistory (fun _ => Option.some ((2 : ℚ), (2 : ℚ))) 10).length := by
    decide
  refine ⟨hlen, ?_⟩
  rw [(c8_wb_convergence (fun _ => Option.some (2, 2)) (2, 2) Option.none 10 hlen).1]
  have hh : wbHistory (fun _ => Option.some ((2 : ℚ), (2 : ℚ))) 10 =
      [(2, 2), (2, 2), (2, 2), (2, 2), (2, 2), (2, 2), (2, 2), (2, 2), (2, 2), (2, 2)] := by
    rfl
  rw [hh]
  constructor <;> norm_num [pyMax, pyMin, List.foldl]

/-! ### Capture orchestration (`capture/service.py`)

`dual_capture_image` is embedded as a pure function from an explicit `World`
— camera connectivity, per-camera backend outcome and duration, the
scheduler's extra sleep delay, the timestamp, and the file metadata functions
— to the trace of externally visible events plus the returned value.  Time is
a rational millisecond clock starting at the first worker submission; the
`stagger_ms` sleep advances it by at least the requested amount
(`time.sleep` never wakes early), `sleepJitter ≥ 0` being the overshoot. -/

/-- Python `s.startswith(p)`. -/
def pyStartsWith (s p : String) : Bool := List.isPrefixOf p.data s.data

/-- Python `Path(path).name`: the last `/`-separated component. -/
def path_name (path : String) : String := String.mk ((pySplit '/' path.data).getLastD [])

/-- Embedding of `service.image_filename`: `generated_index` stands for the
UTC-timestamp index built when no index is passed (`if not index:` also
treats an empty string as absent). -/
def image_filename (generated_index : String) (camera_index : ℤ) (index : Option String)
    (img_size : Option (ℤ × ℤ)) (image_encoding : String) : String :=
  let idx :=
    (match index with
    | Option.some s => if s = "" then generated_index else s
    | Option.none => generated_index)
  let filename := idx ++ "_c" ++ toString camera_index
  let filename :=
    (match img_size with
    | Option.some (w, h) => filename ++ "_" ++ toString w ++ "x" ++ toString h
    | Option.none => filename)
  filename ++ (if pyStartsWith image_encoding "." then image_encoding else "." ++ image_encoding)

/-- One file entry of a capture record (`manifestHandler.CaptureFile`). -/
structure CaptureFileM where
  role : String
  relative_path : String
  bytes : ℤ
  mimetype : String
  sha256 : Option String

/-- One camera entry of a capture record (`manifestHandler.CaptureCamera`). -/
structure CaptureCameraM where
  camera_index : ℤ
  config : List (String × PyVal)

/-- A capture record as `generate_manifest_record` builds it
(`manifestHandler.CaptureRecord`; the uuid/timestamp/host provenance fields
are filled by dataclass defaults and are not touched by the orchestrator;
`status` defaults to `"success"`). -/
structure CaptureRecordM where
  project_name : String
  pair_id : Option String
  files : List CaptureFileM
  cameras : List CaptureCameraM
  timing : List (String × PyVal)
  status : String

/-- Embedding of `service.generate_manifest_record`: role auto-assignment by
file count, file entries with relative path/size/mimetype/sha256, camera
entries with full config snapshots, and the timing dict with
`camera<i>_seconds` entries followed by `stagger_ms` when a stagger was
passed.  `getsize`/`sha256` model `os.path.getsize`/`utils.compute_sha256`. -/
def generate_manifest_record (getsize : String → ℤ) (sha256 : String → String)
    (project_name : String) (img_paths : List String) (cam_configs : List CameraConfig)
    (times : Option (List ℚ)) (pair_id : Option String) (stagger : Option ℤ)
    (roles : Option (List String)) : CaptureRecordM :=
  let roles :=
    (match roles with
    | Option.some r => r
    | Option.none =>
      if img_paths.length = 1 then ["single"]
      else if img_paths.length = 2 then ["left", "right"]
      else (List.range img_paths.length).map (fun i => "cam" ++ toString i))
  let files := (img_paths.zip (cam_configs.zip roles)).map
    (fun pcr =>
      { role := pcr.2.2, relative_path := "images/main/" ++ path_name pcr.1,
        bytes := getsize pcr.1, mimetype := "image/" ++ pcr.2.1.encoding,
        sha256 := Option.some (sha256 pcr.1) })
  let cameras := cam_configs.map
    (fun config => { camera_index := config.camera_index, config := config.to_dict })
  let timing :=
    (match times with
    | Option.some ts =>
      ts.enum.map (fun it => ("camera" ++ toString (it.1 + 1) ++ "_seconds", PyVal.rat it.2))
    | Option.none => []) ++
    (match stagger with
    | Option.some s => [("stagger_ms", PyVal.int s)]
    | Option.none => [])
  { project_name := project_name, pair_id := pair_id, files := files,
    cameras := cameras, timing := timing, status := "success" }

/-- The environment a capture runs in: which camera indices are connected
(`rpicam-still --list-cameras`), whether and how long each backend capture
runs, how much longer than requested the stagger sleep takes (never
negative), the shared UTC timestamp index, and the file metadata functions. -/
structure World where
  connected : ℤ → Bool
  captureOk : ℤ → Bool
  captureSeconds : ℤ → ℚ
  sleepJitter : ℚ
  timestamp : String
  getsize : String → ℤ
  sha256 : String → String

/-- The externally visible events of a capture, in order: connectivity
checks, backend capture launches (with the launch clock time in
milliseconds), image files produced, and manifest appends. -/
inductive Event where
  | connCheck (camera_index : ℤ) (ok : Bool)
  | captureLaunch (camera_index : ℤ) (at_ms : ℚ)
  | fileWrite (path : String)
  | manifestAppend (record : CaptureRecordM)

/-- The configured projects directory (`settings.projects_dir`). -/
def PROJECTS_ROOT : String := "/projects"

/-- Embedding of `service.dual_capture_image`: with `check_camera` the two
connectivity checks run first, in order, and a failed check raises before
anything else happens; then both filenames are built from one shared
timestamp index, worker 1 is submitted at clock 0, the stagger sleep runs
(only for `stagger_ms > 0`, overshooting by `sleepJitter`), worker 2 is
submitted, and once both captures succeed the paths and the capture record
(with both times and the stagger) are produced and the record appended; a
failed capture propagates as an error after the launches. -/
def dual_capture_image (w : World) (project_name : String)
    (cam1_config cam2_config : CameraConfig) (check_camera : Bool)
    (include_resolution : Bool) (stagger_ms : ℤ) :
    List Event × Except String (String × String) :=
  if check_camera ∧ w.connected cam1_config.camera_index = false then
    ([Event.connCheck cam1_config.camera_index false],
     .error ("Camera " ++ toString cam1_config.camera_index ++ " is not connected."))
  else if check_camera ∧ w.connected cam2_config.camera_index = false then
    ([Event.connCheck cam1_config.camera_index true,
      Event.connCheck cam2_config.camera_index false],
     .error ("Camera " ++ toString cam2_config.camera_index ++ " is not connected."))
  else
    let checkEvents :=
      if check_camera then
        [Event.connCheck cam1_config.camera_index true,
         Event.connCheck cam2_config.camera_index true]
      else []
    let timestamp_index := w.timestamp
    let filename1 := image_filename w.timestamp cam1_config.camera_index
      (Option.some timestamp_index)
      (if include_resolution then Option.some cam1_config.img_size else Option.none)
      cam1_config.encoding
    let filename2 := image_filename w.timestamp cam2_config.camera_index
      (Option.some timestamp_index)
      (if include_resolution then Option.some cam2_config.img_size else Option.none)
      cam2_config.encoding
    let t1 : ℚ := 0
    let sleep_actual : ℚ := (if stagger_ms > 0 then (stagger_ms : ℚ) else 0) + w.sleepJitter
    let t2 : ℚ := t1 + sleep_actual
    let path1 := PROJECTS_ROOT ++ "/" ++ project_name ++ "/images/main/" ++ filename1
    let path2 := PROJECTS_ROOT ++ "/" ++ project_name ++ "/images/main/" ++ filename2
    let launchEvents := [Event.captureLaunch cam1_config.camera_index t1,
                         Event.captureLaunch cam2_config.camera_index t2]
    if w.captureOk cam1_config.camera_index ∧ w.captureOk cam2_config.camera_index then
      let time1 := w.captureSeconds cam1_config.camera_index
      let time2 := w.captureSeconds cam2_config.camera_index
      let record := generate_manifest_record w.getsize w.sha256 project_name
        [path1, path2] [cam1_config, cam2_config] (Option.some [time1, time2])
        (Option.some timestamp_index) (Option.some stagger_ms) Option.none
      (checkEvents ++ launchEvents ++
        [Event.fileWrite path1, Event.fileWrite path2, Event.manifestAppend record],
       .ok (path1, path2))
    else
      (checkEvents ++ launchEvents, .error "capture failed")

/-- C1: a dual capture with connectivity checking enabled against a world
where either requested camera is disconnected returns an error, and its event
trace contains only connectivity checks — no backend capture launch for
either camera, no image file write, and no manifest append. -/
theorem c1_dual_capture_fails_fast (w : World) (project_name : String)
    (cam1_config cam2_config : CameraConfig) (include_resolution : Bool) (stagger_ms : ℤ)
    (hdis : w.connected cam1_config.camera_index = false
      ∨ w.connected cam2_config.camera_index = false) :
    (∃ e, (dual_capture_image w project_name cam1_config cam2_config true
        include_resolution stagger_ms).2 = .error e)
    ∧ ∀ ev ∈ (dual_capture_image w project_name cam1_config cam2_config true
        include_resolution stagger_ms).1, ∃ i b, ev = Event.connCheck i b := by
  by_cases h1 : w.connected cam1_config.camera_index = false
  · rw [dual_capture_image, if_pos ⟨rfl, h1⟩]
    exact ⟨⟨_, rfl⟩, by intro ev hev; simp at hev; exact ⟨_, _, hev⟩⟩
  · have h2 : w.connected cam2_config.camera_index = false := hdis.resolve_left h1
    rw [dual_capture_image, if_neg (fun hc => h1 hc.2), if_pos ⟨rfl, h2⟩]
    refine ⟨⟨_, rfl⟩, ?_⟩
    intro ev hev
    simp only [List.mem_cons, List.not_mem_nil, or_false] at hev
    rcases hev with rfl | rfl
    · exact ⟨_, _, rfl⟩
    · exact ⟨_, _, rfl⟩

/-- Witness for C1: both cameras disconnected; the dual capture errors and
emits only connectivity-check events. -/
theorem c1_dual_capture_fails_fast_witness :
    (∃ e, (dual_capture_image
        ⟨fun _ => false, fun _ => true, fun _ => 1, 0, "ts", fun _ => 0, fun _ => "h"⟩
        "proj" { camera_index := 0 } { camera_index := 1 } true false 20).2 = .error e)
    ∧ ∀ ev ∈ (dual_capture_image
        ⟨fun _ => false, fun _ => true, fun _ => 1, 0, "ts", fun _ => 0, fun _ => "h"⟩
        "proj" { camera_index := 0 } { camera_index := 1 } true false 20).1,
        ∃ i b, ev = Event.connCheck i b :=
  c1_dual_capture_fails_fast
    ⟨fun _ => false, fun _ => true, fun _ => 1, 0, "ts", fun _ => 0, fun _ => "h"⟩
    "proj" { camera_index := 0 } { camera_index := 1 } false 20 (Or.inl rfl)

/-- C9: a dual capture whose two branches both succeed appends a record whose
`timing["stagger_ms"]` equals the stagger parameter, and the second camera's
capture is launched at a clock time at least `stagger_ms` milliseconds after
the first camera's launch at clock 0. -/
theorem c9_dual_capture_stagger (w : World) (project_name : String)
    (cam1_config cam2_config : CameraConfig) (check_camera include_resolution : Bool)
    (stagger_ms : ℤ)
    (hjit : 0 ≤ w.sleepJitter)
    (hconn : check_camera = false ∨ (w.connected cam1_config.camera_index = true
      ∧ w.connected cam2_config.camera_index = true))
    (hok1 : w.captureOk cam1_config.camera_index = true)
    (hok2 : w.captureOk cam2_config.camera_index = true) :
    ∃ record t2,
      Event.manifestAppend record ∈ (dual_capture_image w project_name cam1_config
        cam2_config check_camera include_resolution stagger_ms).1
      ∧ record.timing.lookup "stagger_ms" = Option.some (PyVal.int stagger_ms)
      ∧ Event.captureLaunch cam1_config.camera_index 0 ∈ (dual_capture_image w
          project_name cam1_config cam2_config check_camera include_resolution stagger_ms).1
      ∧ Event.captureLaunch cam2_config.camera_index t2 ∈ (dual_capture_image w
          project_name cam1_config cam2_config check_camera include_resolution stagger_ms).1
      ∧ (stagger_ms : ℚ) ≤ t2 - 0 := by
  have hno1 : ¬(check_camera ∧ w.connected cam1_config.camera_index = false) := by
    rcases hconn with rfl | ⟨hc1, _⟩
    · rintro ⟨h, -⟩; exact Bool.noConfusion h
    · rintro ⟨-, h⟩; rw [hc1] at h; exact Bool.noConfusion h
  have hno2 : ¬(check_camera ∧ w.connected cam2_config.camera_index = false) := by
    rcases hconn with rfl | ⟨_, hc2⟩
    · rintro ⟨h, -⟩; exact Bool.noConfusion h
    · rintro ⟨-, h⟩; rw [hc2] at h; exact Bool.noConfusion h
  rw [dual_capture_image, if_neg hno1, if_neg hno2]
  simp only [if_pos (And.intro hok1 hok2)]
  refine ⟨generate_manifest_record w.getsize w.sha256 project_name
      [PROJECTS_ROOT ++ "/" ++ project_name ++ "/images/main/" ++
        image_filename w.timestamp cam1_config.camera_index (Option.some w.timestamp)
          (if include_resolution then Option.some cam1_config.img_size else Option.none)
          cam1_config.encoding,
       PROJECTS_ROOT ++ "/" ++ project_name ++ "/images/main/" ++
        image_filename w.timestamp cam2_config.camera_index (Option.some w.timestamp)
          (if include_resolution then Option.some cam2_config.img_size else Option.none)
          cam2_config.encoding]
      [cam1_config, cam2_config]
      (Option.some [w.captureSeconds cam1_config.camera_index,
        w.captureSeconds cam2_config.camera_index])
      (Option.some w.timestamp) (Option.some stagger_ms) Option.none,
    0 + ((if stagger_ms > 0 then (stagger_ms : ℚ) else 0) + w.sleepJitter),
    ?_, rfl, ?_, ?_, ?_⟩
  · simp
  · simp
  · simp
  · rw [zero_add, sub_zero]
    by_cases hpos : stagger_ms > 0
    · rw [if_pos hpos]
      linarith
    · rw [if_neg hpos]
      push_neg at hpos
      have : (stagger_ms : ℚ) ≤ 0 := by exact_mod_cast hpos
      linarith

/-- Witness for C9: both cameras connected and both captures succeeding with
zero scheduler jitter and `stagger_ms = 20`. -/
theorem c9_dual_capture_stagger_witness :
    ∃ record t2,
      Event.manifestAppend record ∈ (dual_capture_image
        ⟨fun _ => true, fun _ => true, fun _ => 1, 0, "ts", fun _ => 0, fun _ => "h"⟩
        "proj" { camera_index := 0 } { camera_index := 1 } true false 20).1
      ∧ record.timing.lookup "stagger_ms" = Option.some (PyVal.int 20)
      ∧ Event.captureLaunch 0 0 ∈ (dual_capture_image
          ⟨fun _ => true, fun _ => true, fun _ => 1, 0, "ts", fun _ => 0, fun _ => "h"⟩
          "proj" { camera_index := 0 } { camera_index := 1 } true false 20).1
      ∧ Event.captureLaunch 1 t2 ∈ (dual_capture_image
          ⟨fun _ => true, fun _ => true, fun _ => 1, 0, "ts", fun _ => 0, fun _ => "h"⟩
          "proj" { camera_index := 0 } { camera_index := 1 } true false 20).1
      ∧ ((20 : ℤ) : ℚ) ≤ t2 - 0 :=
  c9_dual_capture_stagger
    ⟨fun _ => true, fun _ => true, fun _ => 1, 0, "ts", fun _ => 0, fun _ => "h"⟩
    "proj" { camera_index := 0 } { camera_index := 1 } true false 20
    le_rfl (Or.inr ⟨rfl, rfl⟩) rfl rfl

end DTK
